import Mathlib

/-!
Shallow embedding of the JDBC bridge core of `sqlalchemy-jdbcapi`
(`src/sqlalchemy_jdbcapi/jdbc/`): driver resolution and caching
(`driver_manager.py`), connection construction and close
(`connection.py`), cursor execute / executemany / close (`cursor.py`),
result-cell type conversion (`type_converter.py`) and the async cursor
wrapper (`async_cursor.py`).

Native (JVM-side) calls are modelled by oracle structures whose fields
give the outcome of each native call (`Except String` results standing
for a possibly raised Java exception); functions return the host-level
outcome together with the trace of native calls that were issued and
the log records that were emitted.
-/

set_option linter.unusedVariables false

namespace SqlalchemyJdbcapi

/-! ## Shared host-level types -/

/-- The DB-API exception kinds of `exceptions.py` together with the
built-in Python exceptions the bridge raises. -/
inductive PyExc where
  | InterfaceError (msg : String)
  | DatabaseError (msg : String)
  | ProgrammingError (msg : String)
  | DataError (msg : String)
  | ValueError (msg : String)
  | AttributeError (name : String)
  | RuntimeError (msg : String)
deriving DecidableEq

/-- Log levels used by the bridge modules. -/
inductive LogLevel where
  | debug
  | info
  | warning
  | error
deriving DecidableEq

/-- A log record: level and a tag identifying the call site. -/
abbrev LogEvent : Type := LogLevel × String

/-! ## Classpath merging (`driver_manager.get_classpath_with_drivers`) -/

/-- The duplicate-removal loop of `get_classpath_with_drivers`
(`driver_manager.py` lines 271-277): walk the list keeping a `seen`
set, appending each path not seen before.  The Python `set` is
modelled as a membership list. -/
def dedupSeenAux (seen : List String) : List String → List String
  | [] => []
  | p :: rest =>
    if p ∈ seen then dedupSeenAux seen rest
    else p :: dedupSeenAux (p :: seen) rest

/-- `unique_classpath` computation: remove duplicates while preserving
order, keeping the first occurrence. -/
def removeDuplicatesKeepFirst (paths : List String) : List String :=
  dedupSeenAux [] paths

/-- `get_classpath_with_drivers(databases, auto_download, manual_classpath)`
(`driver_manager.py` lines 241-279).  The auto-resolved driver paths are
supplied by the oracle argument `auto_paths` (the value returned by
`get_all_driver_paths`, which itself swallows per-database failures and
cannot raise).  A falsy (`None` or empty) `manual_classpath` contributes
nothing; manual entries are appended first, auto entries after, then
duplicates are removed keeping first occurrences. -/
def get_classpath_with_drivers (manual_classpath : Option (List String))
    (auto_download : Bool) (auto_paths : List String) : List String :=
  let manual := match manual_classpath with
    | some m => m
    | none => []
  let classpath := manual ++ (if auto_download then auto_paths else [])
  removeDuplicatesKeepFirst classpath

theorem mem_dedupSeenAux (a : String) (seen l : List String) :
    a ∈ dedupSeenAux seen l ↔ a ∈ l ∧ a ∉ seen := by
  induction l generalizing seen with
  | nil => simp [dedupSeenAux]
  | cons p rest ih =>
    by_cases hp : p ∈ seen
    · simp only [dedupSeenAux, if_pos hp, ih, List.mem_cons]
      by_cases hap : a = p
      · subst hap; tauto
      · tauto
    · simp only [dedupSeenAux, if_neg hp, List.mem_cons, ih]
      by_cases hap : a = p
      · subst hap; tauto
      · tauto

theorem dedupSeenAux_congr (s₁ s₂ l : List String)
    (h : ∀ a, a ∈ s₁ ↔ a ∈ s₂) :
    dedupSeenAux s₁ l = dedupSeenAux s₂ l := by
  induction l generalizing s₁ s₂ with
  | nil => rfl
  | cons p rest ih =>
    by_cases hp : p ∈ s₁
    · rw [dedupSeenAux, dedupSeenAux, if_pos hp, if_pos ((h p).mp hp)]
      exact ih s₁ s₂ h
    · rw [dedupSeenAux, dedupSeenAux, if_neg hp,
        if_neg (fun hc => hp ((h p).mpr hc))]
      refine congrArg _ (ih _ _ fun a => ?_)
      simp only [List.mem_cons]
      exact or_congr Iff.rfl (h a)

theorem dedupSeenAux_append (s xs ys : List String) :
    dedupSeenAux s (xs ++ ys)
      = dedupSeenAux s xs ++ dedupSeenAux (xs ++ s) ys := by
  induction xs generalizing s with
  | nil => rfl
  | cons p rest ih =>
    by_cases hp : p ∈ s
    · rw [List.cons_append, dedupSeenAux, if_pos hp, dedupSeenAux, if_pos hp,
        ih s]
      refine congrArg _ (dedupSeenAux_congr _ _ _ fun a => ?_)
      simp only [List.cons_append, List.mem_cons, List.mem_append]
      by_cases hap : a = p
      · subst hap; tauto
      · tauto
    · rw [List.cons_append, dedupSeenAux, if_neg hp, dedupSeenAux, if_neg hp,
        ih (p :: s), List.cons_append]
      refine congrArg _ (congrArg _ (dedupSeenAux_congr _ _ _ fun a => ?_))
      simp only [List.mem_cons, List.mem_append]
      tauto

theorem not_mem_seen_of_mem_dedupSeenAux (a : String) (s l : List String)
    (h : a ∈ dedupSeenAux s l) : a ∉ s :=
  ((mem_dedupSeenAux a s l).mp h).2

theorem dedupSeenAux_filter (s t ys : List String) (hts : ∀ a, a ∈ t → a ∈ s) :
    dedupSeenAux s ys
      = (dedupSeenAux t ys).filter (fun y => decide (y ∉ s)) := by
  induction ys generalizing s t with
  | nil => rfl
  | cons y rest ih =>
    by_cases hys : y ∈ s
    · rw [dedupSeenAux, if_pos hys]
      by_cases hyt : y ∈ t
      · rw [dedupSeenAux, if_pos hyt]
        exact ih s t hts
      · rw [dedupSeenAux, if_neg hyt, List.filter_cons]
        have hcond : (decide (y ∉ s)) = false := by simp [hys]
        rw [hcond]
        simp only [Bool.false_eq_true, if_false]
        refine ih s (y :: t) fun a ha => ?_
        rcases List.mem_cons.mp ha with rfl | ha
        · exact hys
        · exact hts a ha
    · have hyt : y ∉ t := fun hc => hys (hts y hc)
      rw [dedupSeenAux, if_neg hys, dedupSeenAux, if_neg hyt, List.filter_cons]
      have hcond : (decide (y ∉ s)) = true := by simp [hys]
      rw [hcond]
      simp only [if_true]
      refine congrArg _ ?_
      rw [ih (y :: s) (y :: t) (fun a ha => by
        rcases List.mem_cons.mp ha with rfl | ha
        · exact List.mem_cons_self _ _
        · exact List.mem_cons_of_mem _ (hts a ha))]
      refine List.filter_congr fun a ha => ?_
      have hay : a ≠ y := by
        intro hc
        exact not_mem_seen_of_mem_dedupSeenAux a _ _ ha
          (hc ▸ List.mem_cons_self _ _)
      simp [hay]

theorem dedupSeenAux_nodup (s l : List String) :
    (dedupSeenAux s l).Nodup := by
  induction l generalizing s with
  | nil => exact List.nodup_nil
  | cons p rest ih =>
    by_cases hp : p ∈ s
    · rw [dedupSeenAux, if_pos hp]
      exact ih s
    · rw [dedupSeenAux, if_neg hp]
      refine List.nodup_cons.mpr ⟨fun hc => ?_, ih (p :: s)⟩
      exact not_mem_seen_of_mem_dedupSeenAux p _ _ hc (List.mem_cons_self _ _)

/-- C7: merging a manual classpath with auto-resolved entries lists all
manual entries (first-occurrence deduplicated, in order) before the
auto-resolved entries, drops every auto-resolved entry already present
manually, and every present path appears exactly once — in particular a
path present both manually and auto-resolved appears once, at its manual
position. -/
theorem claim_C7_classpath_merge (manual auto : List String) :
    get_classpath_with_drivers (some manual) true auto
      = removeDuplicatesKeepFirst manual
          ++ (removeDuplicatesKeepFirst auto).filter (fun p => decide (p ∉ manual))
    ∧ (∀ p, p ∈ manual ++ auto →
        (get_classpath_with_drivers (some manual) true auto).count p = 1) := by
  have hmerge : get_classpath_with_drivers (some manual) true auto
      = dedupSeenAux [] (manual ++ auto) := rfl
  constructor
  · rw [hmerge, dedupSeenAux_append, List.append_nil]
    refine congrArg _ ?_
    exact dedupSeenAux_filter manual [] auto (fun a ha => absurd ha (List.not_mem_nil a))
  · intro p hp
    rw [hmerge]
    refine List.count_eq_one_of_mem (dedupSeenAux_nodup _ _) ?_
    exact (mem_dedupSeenAux p [] (manual ++ auto)).mpr
      ⟨hp, List.not_mem_nil p⟩

/-- Witness for C7 at concrete input: manual `[a, b]`, auto-resolved
`[b, c]` merge to `[a, b, c]`, and the shared path `b` appears exactly
once, at its manual position. -/
theorem claim_C7_classpath_merge_witness :
    get_classpath_with_drivers (some ["a", "b"]) true ["b", "c"]
      = removeDuplicatesKeepFirst ["a", "b"]
          ++ (removeDuplicatesKeepFirst ["b", "c"]).filter
              (fun p => decide (p ∉ ["a", "b"]))
    ∧ (get_classpath_with_drivers (some ["a", "b"]) true ["b", "c"]).count "b" = 1 :=
  ⟨(claim_C7_classpath_merge ["a", "b"] ["b", "c"]).1,
   (claim_C7_classpath_merge ["a", "b"] ["b", "c"]).2 "b" (by decide)⟩

/-! ## Driver download and verification (`driver_manager.py`) -/

/-- `JDBCDriver` named tuple (`driver_manager.py` lines 23-45). -/
structure JDBCDriver where
  group_id : String
  artifact_id : String
  version : String
  classifier : Option String := none
deriving DecidableEq

/-- `JDBCDriver.filename`: the JAR filename. -/
def JDBCDriver.filename (d : JDBCDriver) : String :=
  match d.classifier with
  | some c => d.artifact_id ++ "-" ++ d.version ++ "-" ++ c ++ ".jar"
  | none => d.artifact_id ++ "-" ++ d.version ++ ".jar"

/-- `group_id.replace(".", "/")`: for the single-character pattern this
is a character-wise map. -/
def replaceDotWithSlash (s : String) : String :=
  String.mk (s.toList.map (fun c => if c = '.' then '/' else c))

/-- `JDBCDriver.maven_url`: the Maven Central download URL. -/
def JDBCDriver.maven_url (d : JDBCDriver) : String :=
  let base_url := "https://repo1.maven.org/maven2"
  let group_path := replaceDotWithSlash d.group_id
  base_url ++ "/" ++ group_path ++ "/" ++ d.artifact_id ++ "/" ++ d.version
    ++ "/" ++ d.filename

/-- File metadata relevant to the download/verification paths: whether
the entry is a regular file, and its size (content is identified with
its metadata for this model). -/
structure FileInfo where
  is_file : Bool
  size : Nat
deriving DecidableEq

/-- Filesystem model: finite map from path to file info as an
association list, most recent write first. -/
structure FS where
  entries : List (String × FileInfo)
deriving DecidableEq

def FS.lookup (fs : FS) (p : String) : Option FileInfo :=
  (fs.entries.find? (fun e => e.1 = p)).map Prod.snd

/-- `Path.exists()`. -/
def FS.existsPath (fs : FS) (p : String) : Bool :=
  (fs.lookup p).isSome

/-- Create or overwrite a file. -/
def FS.write (fs : FS) (p : String) (info : FileInfo) : FS :=
  ⟨(p, info) :: fs.entries⟩

def FS.remove (fs : FS) (p : String) : FS :=
  ⟨fs.entries.filter (fun e => decide (e.1 ≠ p))⟩

/-- `Path.replace(dst)`: atomically rename `src` onto `dst`. -/
def FS.replacePath (fs : FS) (src dst : String) : FS :=
  match fs.lookup src with
  | none => fs
  | some info => ((fs.remove src).remove dst).write dst info

/-- The final path component of `p`, reversed. -/
def revFinalComponent (p : String) : List Char :=
  p.toList.reverse.takeWhile (fun c => c ≠ '/')

/-- The extension characters of the final component of `p` (those
after its last dot), reversed. -/
def revExtension (p : String) : List Char :=
  (revFinalComponent p).takeWhile (fun c => c ≠ '.')

/-- `pathlib.Path.with_suffix`: replace the extension (the final
component's part from its last dot) with `suffix`, appending when the
final component has no dot.  (The Python corner case of a component
whose only dot is leading is not modelled; every use site has a
`<artifact>-<version>.jar` filename.) -/
def pathWithSuffix (p : String) (suffix : String) : String :=
  if (revExtension p).length = (revFinalComponent p).length then p ++ suffix
  else String.mk ((p.toList.take (p.toList.length - (revExtension p).length - 1))
    ++ suffix.toList)

/-- `pathlib.Path.suffix`: the extension of the final component,
including the dot, or `""` when there is none. -/
def pathSuffix (p : String) : String :=
  if (revExtension p).length = (revFinalComponent p).length then ""
  else String.mk ('.' :: (revExtension p).reverse)

/-- The directory part of a path: everything up to and including the
last slash. -/
def dirOf (p : String) : String :=
  String.mk (p.toList.reverse.dropWhile (fun c => c ≠ '/')).reverse

instance {ε α : Type} [DecidableEq ε] [DecidableEq α] :
    DecidableEq (Except ε α) := fun a b =>
  match a, b with
  | .ok x, .ok y =>
    if h : x = y then isTrue (by rw [h])
    else isFalse (fun hc => h (Except.ok.inj hc))
  | .error x, .error y =>
    if h : x = y then isTrue (by rw [h])
    else isFalse (fun hc => h (Except.error.inj hc))
  | .ok _, .error _ => isFalse (fun hc => Except.noConfusion hc)
  | .error _, .ok _ => isFalse (fun hc => Except.noConfusion hc)

/-- Oracle for `urllib.request.urlopen` plus `shutil.copyfileobj`:
maps a URL to either a raised exception message or the info of the
fully streamed content. -/
structure Network where
  fetch : String → Except String FileInfo

/-- Observable outcome of one `download_driver` call: the returned
path or raised error, the filesystem state after streaming to the
temporary file but before the rename, the final filesystem state, the
URLs requested, and the temporary path used (when a download
happened). -/
structure DownloadOutcome where
  result : Except PyExc String
  fsMid : FS
  fsEnd : FS
  requests : List String
  tempUsed : Option String
deriving DecidableEq

/-- `download_driver(driver, cache_dir, force)` (`driver_manager.py`
lines 108-161), relative to a network oracle and a filesystem state.
The `cache_dir.mkdir` call is not modelled (the filesystem map needs
no directories).  The cache-hit test is `target_path.exists() and not
force` — no verification of the cached file is performed. -/
def download_driver (net : Network) (fs : FS) (driver : JDBCDriver)
    (cache_dir : String) (force : Bool) : DownloadOutcome :=
  let target_path := cache_dir ++ "/" ++ driver.filename
  if fs.existsPath target_path && !force then
    { result := .ok target_path, fsMid := fs, fsEnd := fs,
      requests := [], tempUsed := none }
  else
    match net.fetch driver.maven_url with
    | .error e =>
      { result := .error (.RuntimeError ("Failed to download driver from "
          ++ driver.maven_url ++ ": " ++ e)),
        fsMid := fs, fsEnd := fs,
        requests := [driver.maven_url], tempUsed := none }
    | .ok content =>
      let temp_path := pathWithSuffix target_path ".tmp"
      let fsMid := fs.write temp_path content
      let fsEnd := fsMid.replacePath temp_path target_path
      { result := .ok target_path, fsMid := fsMid, fsEnd := fsEnd,
        requests := [driver.maven_url], tempUsed := some temp_path }

/-- `verify_driver(driver_path)` (`driver_manager.py` lines 282-306):
exists, is a regular file, has suffix `.jar`, and is non-empty.  No
file-type-signature (ZIP magic) check is performed. -/
def verify_driver (fs : FS) (driver_path : String) : Bool :=
  match fs.lookup driver_path with
  | none => false
  | some info =>
    if !info.is_file then false
    else if !(pathSuffix driver_path = ".jar") then false
    else if info.size = 0 then false
    else true

/-- Two successive resolutions of the same coordinate without `force`,
the second starting from the filesystem the first left behind. -/
def resolveTwice (net : Network) (fs : FS) (driver : JDBCDriver)
    (cache_dir : String) : DownloadOutcome × DownloadOutcome :=
  (download_driver net fs driver cache_dir false,
   download_driver net (download_driver net fs driver cache_dir false).fsEnd
     driver cache_dir false)

/-! ### Filesystem and path lemmas -/

theorem FS.lookup_write_self (fs : FS) (p : String) (i : FileInfo) :
    (fs.write p i).lookup p = some i := by
  simp [FS.write, FS.lookup, List.find?_cons]

theorem FS.lookup_write_ne (fs : FS) (p q : String) (i : FileInfo) (h : q ≠ p) :
    (fs.write p i).lookup q = fs.lookup q := by
  simp [FS.write, FS.lookup, List.find?_cons, Ne.symm h]

theorem FS.lookup_replacePath_dst (fs : FS) (src dst : String) (i : FileInfo)
    (h : fs.lookup src = some i) :
    (fs.replacePath src dst).lookup dst = some i := by
  unfold FS.replacePath
  rw [h]
  exact FS.lookup_write_self _ _ _

theorem string_toList_append_jar (x : String) :
    (x ++ ".jar").toList = x.toList ++ ['.', 'j', 'a', 'r'] := rfl

theorem revFinalComponent_append_jar (x : String) :
    revFinalComponent (x ++ ".jar")
      = 'r' :: 'a' :: 'j' :: '.' :: x.toList.reverse.takeWhile (fun c => c ≠ '/') := by
  unfold revFinalComponent
  rw [string_toList_append_jar, List.reverse_append]
  simp

theorem revExtension_append_jar (x : String) :
    revExtension (x ++ ".jar") = ['r', 'a', 'j'] := by
  unfold revExtension
  rw [revFinalComponent_append_jar]
  simp

theorem pathWithSuffix_jar_tmp (x : String) :
    pathWithSuffix (x ++ ".jar") ".tmp" = x ++ ".tmp" := by
  unfold pathWithSuffix
  rw [revExtension_append_jar, revFinalComponent_append_jar]
  rw [if_neg (by simp)]
  rw [string_toList_append_jar]
  have hlen : (x.toList ++ ['.', 'j', 'a', 'r']).length - (['r', 'a', 'j'] : List Char).length - 1
      = x.toList.length := by simp
  rw [hlen, List.take_left]
  rfl

theorem append_tmp_ne_append_jar (x : String) : x ++ ".tmp" ≠ x ++ ".jar" := by
  intro h
  have hd : x.data ++ ".tmp".data = x.data ++ ".jar".data := by
    have hdd := congrArg String.data h
    simp only [String.data_append] at hdd
    exact hdd
  have h2 : (".tmp" : String).data = (".jar" : String).data :=
    List.append_inj_right hd rfl
  exact absurd h2 (by decide)

theorem dirOf_append_tmp_jar (x : String) :
    dirOf (x ++ ".tmp") = dirOf (x ++ ".jar") := by
  unfold dirOf
  rw [show (x ++ ".tmp").toList = x.toList ++ ['.', 't', 'm', 'p'] from rfl,
    string_toList_append_jar, List.reverse_append, List.reverse_append]
  simp

/-- The filename without its `.jar` extension. -/
def filenameStem (d : JDBCDriver) : String :=
  match d.classifier with
  | some c => d.artifact_id ++ "-" ++ d.version ++ "-" ++ c
  | none => d.artifact_id ++ "-" ++ d.version

theorem filename_eq_stem_jar (d : JDBCDriver) :
    d.filename = filenameStem d ++ ".jar" := by
  unfold JDBCDriver.filename filenameStem
  cases d.classifier <;> rfl

theorem target_eq_stem_jar (d : JDBCDriver) (cache_dir : String) :
    cache_dir ++ "/" ++ d.filename
      = (cache_dir ++ "/" ++ filenameStem d) ++ ".jar" := by
  rw [filename_eq_stem_jar]
  simp [String.append_assoc]

/-! ### C2 and C3 -/

/-- The recommended PostgreSQL driver coordinate
(`RECOMMENDED_JDBC_DRIVERS["postgresql"]`). -/
def pgDriver : JDBCDriver :=
  { group_id := "org.postgresql", artifact_id := "postgresql", version := "42.7.1" }

/-- A cache holding the PostgreSQL driver target path as an empty
(zero-byte, hence unverifiable) file. -/
def fsStaleCache : FS :=
  ⟨[("/cache/postgresql-42.7.1.jar", { is_file := true, size := 0 })]⟩

def fsEmpty : FS := ⟨[]⟩

/-- A network oracle whose every fetch succeeds. -/
def netAlwaysOk : Network := ⟨fun _ => .ok { is_file := true, size := 1000 }⟩

/-- A second download attempt delivering different content. -/
def netAlwaysOk2 : Network := ⟨fun _ => .ok { is_file := true, size := 2000 }⟩

/-- C2 counterexample: with the PostgreSQL coordinate cached as an empty
file — which fails `verify_driver` — `download_driver` without `force`
returns the cached path anyway, issuing no network request: the cached
file is returned without passing verification. -/
theorem claim_C2_counterexample :
    verify_driver fsStaleCache "/cache/postgresql-42.7.1.jar" = false
    ∧ (download_driver netAlwaysOk fsStaleCache pgDriver "/cache" false).result
        = .ok "/cache/postgresql-42.7.1.jar"
    ∧ (download_driver netAlwaysOk fsStaleCache pgDriver "/cache" false).requests
        = [] :=
  ⟨rfl, rfl, rfl⟩

theorem download_driver_hit (net : Network) (fs : FS) (driver : JDBCDriver)
    (cache_dir : String)
    (h : fs.existsPath (cache_dir ++ "/" ++ driver.filename) = true) :
    download_driver net fs driver cache_dir false
      = { result := .ok (cache_dir ++ "/" ++ driver.filename), fsMid := fs,
          fsEnd := fs, requests := [], tempUsed := none } := by
  simp [download_driver, h]

theorem download_driver_fetch (net : Network) (fs : FS) (driver : JDBCDriver)
    (cache_dir : String) (force : Bool) (content : FileInfo)
    (hbranch : (fs.existsPath (cache_dir ++ "/" ++ driver.filename) && !force) = false)
    (hfetch : net.fetch driver.maven_url = .ok content) :
    download_driver net fs driver cache_dir force
      = { result := .ok (cache_dir ++ "/" ++ driver.filename),
          fsMid := fs.write (pathWithSuffix (cache_dir ++ "/" ++ driver.filename) ".tmp") content,
          fsEnd := (fs.write (pathWithSuffix (cache_dir ++ "/" ++ driver.filename) ".tmp") content).replacePath
            (pathWithSuffix (cache_dir ++ "/" ++ driver.filename) ".tmp")
            (cache_dir ++ "/" ++ driver.filename),
          requests := [driver.maven_url],
          tempUsed := some (pathWithSuffix (cache_dir ++ "/" ++ driver.filename) ".tmp") } := by
  simp [download_driver, hbranch, hfetch]

/-- C2 (amended): resolving a coordinate whose cache path already
exists returns that path with no network request and no filesystem
change — but without any verification of the cached file; and
resolving the same coordinate twice without `force`, starting from a
cache miss with a successful download, issues exactly one network
request in total, the second call returning the same path and leaving
the filesystem unchanged. -/
theorem claim_C2_cache_hit_amended (net : Network) (fs : FS)
    (driver : JDBCDriver) (cache_dir : String) :
    (fs.existsPath (cache_dir ++ "/" ++ driver.filename) = true →
      (download_driver net fs driver cache_dir false).result
          = .ok (cache_dir ++ "/" ++ driver.filename)
      ∧ (download_driver net fs driver cache_dir false).requests = []
      ∧ (download_driver net fs driver cache_dir false).fsEnd = fs)
    ∧ (∀ content : FileInfo,
        fs.existsPath (cache_dir ++ "/" ++ driver.filename) = false →
        net.fetch driver.maven_url = .ok content →
        (resolveTwice net fs driver cache_dir).1.requests.length
            + (resolveTwice net fs driver cache_dir).2.requests.length = 1
        ∧ (resolveTwice net fs driver cache_dir).2.result
            = .ok (cache_dir ++ "/" ++ driver.filename)
        ∧ (resolveTwice net fs driver cache_dir).2.fsEnd
            = (resolveTwice net fs driver cache_dir).1.fsEnd) := by
  constructor
  · intro h
    rw [download_driver_hit net fs driver cache_dir h]
    exact ⟨rfl, rfl, rfl⟩
  · intro content hmiss hfetch
    have hbranch : (fs.existsPath (cache_dir ++ "/" ++ driver.filename) && !false) = false := by
      rw [hmiss]; rfl
    have h1 := download_driver_fetch net fs driver cache_dir false content hbranch hfetch
    have hend : (download_driver net fs driver cache_dir false).fsEnd.existsPath
        (cache_dir ++ "/" ++ driver.filename) = true := by
      rw [h1]
      have := FS.lookup_replacePath_dst
        (fs.write (pathWithSuffix (cache_dir ++ "/" ++ driver.filename) ".tmp") content)
        (pathWithSuffix (cache_dir ++ "/" ++ driver.filename) ".tmp")
        (cache_dir ++ "/" ++ driver.filename) content
        (FS.lookup_write_self fs _ content)
      simp [FS.existsPath, this]
    have h2 := download_driver_hit net (download_driver net fs driver cache_dir false).fsEnd
      driver cache_dir hend
    unfold resolveTwice
    rw [h2, h1]
    exact ⟨rfl, rfl, rfl⟩

/-- Witness for C2 (amended): a cache hit on the stale-cache state
issues no request, and a double resolve from the empty filesystem
issues exactly one request in total. -/
theorem claim_C2_cache_hit_amended_witness :
    (download_driver netAlwaysOk fsStaleCache pgDriver "/cache" false).requests = []
    ∧ (resolveTwice netAlwaysOk fsEmpty pgDriver "/cache").1.requests.length
        + (resolveTwice netAlwaysOk fsEmpty pgDriver "/cache").2.requests.length = 1 :=
  ⟨((claim_C2_cache_hit_amended netAlwaysOk fsStaleCache pgDriver "/cache").1 rfl).2.1,
   ((claim_C2_cache_hit_amended netAlwaysOk fsEmpty pgDriver "/cache").2
      { is_file := true, size := 1000 } rfl rfl).1⟩

/-- C3 counterexample: the temporary file name is a deterministic
function of the coordinate, not unique per attempt — two distinct
download attempts for the PostgreSQL coordinate (different content,
one forced) both use `/cache/postgresql-42.7.1.tmp`, so concurrent
attempts for the same coordinate collide on the temporary file name. -/
theorem claim_C3_counterexample :
    (download_driver netAlwaysOk fsEmpty pgDriver "/cache" false).tempUsed
        = some "/cache/postgresql-42.7.1.tmp"
    ∧ (download_driver netAlwaysOk2 fsEmpty pgDriver "/cache" true).tempUsed
        = some "/cache/postgresql-42.7.1.tmp" :=
  ⟨rfl, rfl⟩

/-- C3 (amended): every download attempt streams to a temporary file
located in the same directory as the target, named by replacing the
target's suffix with `.tmp` — deterministic per coordinate rather than
unique per attempt — then renames it into place with `Path.replace`;
the target path is untouched while the temporary file is being
written, and holds the complete content afterwards, so a reader of the
final cache path never observes a half-written file. -/
theorem claim_C3_temp_rename_amended (net : Network) (fs : FS)
    (driver : JDBCDriver) (cache_dir : String) (force : Bool) (content : FileInfo)
    (hbranch : (fs.existsPath (cache_dir ++ "/" ++ driver.filename) && !force) = false)
    (hfetch : net.fetch driver.maven_url = .ok content) :
    (download_driver net fs driver cache_dir force).tempUsed
        = some (pathWithSuffix (cache_dir ++ "/" ++ driver.filename) ".tmp")
    ∧ dirOf (pathWithSuffix (cache_dir ++ "/" ++ driver.filename) ".tmp")
        = dirOf (cache_dir ++ "/" ++ driver.filename)
    ∧ pathWithSuffix (cache_dir ++ "/" ++ driver.filename) ".tmp"
        ≠ cache_dir ++ "/" ++ driver.filename
    ∧ (download_driver net fs driver cache_dir force).fsMid.lookup
        (cache_dir ++ "/" ++ driver.filename)
        = fs.lookup (cache_dir ++ "/" ++ driver.filename)
    ∧ (download_driver net fs driver cache_dir force).fsEnd.lookup
        (cache_dir ++ "/" ++ driver.filename) = some content := by
  have h1 := download_driver_fetch net fs driver cache_dir force content hbranch hfetch
  have hstem := target_eq_stem_jar driver cache_dir
  have htmp : pathWithSuffix (cache_dir ++ "/" ++ driver.filename) ".tmp"
      = (cache_dir ++ "/" ++ filenameStem driver) ++ ".tmp" := by
    rw [hstem, pathWithSuffix_jar_tmp]
  have hne : pathWithSuffix (cache_dir ++ "/" ++ driver.filename) ".tmp"
      ≠ cache_dir ++ "/" ++ driver.filename := by
    rw [htmp, hstem]
    exact append_tmp_ne_append_jar _
  refine ⟨by rw [h1], ?_, hne, ?_, ?_⟩
  · rw [htmp]
    conv_rhs => rw [hstem]
    exact dirOf_append_tmp_jar _
  · rw [h1]
    exact FS.lookup_write_ne fs _ _ content (fun hc => hne hc.symm)
  · rw [h1]
    exact FS.lookup_replacePath_dst _ _ _ content (FS.lookup_write_self fs _ content)

/-- Witness for C3 (amended) on the PostgreSQL coordinate from an
empty cache. -/
theorem claim_C3_temp_rename_amended_witness :
    (download_driver netAlwaysOk fsEmpty pgDriver "/cache" false).tempUsed
        = some (pathWithSuffix ("/cache" ++ "/" ++ pgDriver.filename) ".tmp")
    ∧ (download_driver netAlwaysOk fsEmpty pgDriver "/cache" false).fsEnd.lookup
        ("/cache" ++ "/" ++ pgDriver.filename)
        = some { is_file := true, size := 1000 } :=
  ⟨(claim_C3_temp_rename_amended netAlwaysOk fsEmpty pgDriver "/cache" false
      { is_file := true, size := 1000 } rfl rfl).1,
   (claim_C3_temp_rename_amended netAlwaysOk fsEmpty pgDriver "/cache" false
      { is_file := true, size := 1000 } rfl rfl).2.2.2.2⟩

/-! ## Connection (`connection.py`) -/

/-- The shapes of the `driver_args` argument.  Python's
`isinstance(driver_args, (list, tuple))` treats lists and tuples alike,
so both are the single `seq` constructor here. -/
inductive DriverArgs where
  | none
  | dict (props : List (String × String))
  | seq (args : List String)
deriving DecidableEq

/-- One native (JPype / JVM-side) call. -/
inductive JCall where
  | startJVM (classpath : List String)
  | loadClass (name : String)
  | getConnection (url : String)
  | getConnectionProps (url : String) (props : List (String × String))
  | getConnectionUserPwd (url : String) (user : String) (pwd : String)
  | closeConnection
  | closeStatement
  | closeResultSet
  | prepareStatement (sql : String)
  | createStatement
  | setNull (idx : Nat)
  | setObject (idx : Nat) (v : Int)
  | executePS
  | executeSQL (sql : String)
  | getResultSet
  | getMetaData
  | getUpdateCount
  | addBatch
  | executeBatch
deriving DecidableEq

/-- Whether a call is a native connection attempt
(`DriverManager.getConnection` in any of its three forms). -/
def JCall.isConnectAttempt : JCall → Bool
  | .getConnection _ => true
  | .getConnectionProps _ _ => true
  | .getConnectionUserPwd _ _ _ => true
  | _ => false

/-- Oracle for the native calls made during connection setup and
teardown. -/
structure ConnEnv where
  startJvm : List String → Except String Unit
  loadClass : String → Except String Unit
  getConnection : String → Except String Unit
  getConnectionProps : String → List (String × String) → Except String Unit
  getConnectionUserPwd : String → String → String → Except String Unit
  closeConn : Except String Unit

/-- The `Connection` object's fields relevant to lifecycle claims. -/
structure ConnectionState where
  _closed : Bool
  _jdbc_connection : Option Unit
deriving DecidableEq

/-- `Connection.__init__` (`connection.py` lines 24-97): start the JVM
(failures become `InterfaceError` before anything else), then inside
one `try` block load the driver class, load `java.sql.DriverManager`,
and dispatch on the `driver_args` shape; every exception raised inside
the `try` — including the `ValueError` for an unsupported shape — is
wrapped into `DatabaseError("Failed to connect to database: ...")`.
Returns the construction outcome and the trace of native calls
issued. -/
def connectionInit (env : ConnEnv) (jclassname : String) (url : String)
    (driver_args : DriverArgs) (jars : List String) :
    Except PyExc ConnectionState × List JCall :=
  match env.startJvm jars with
  | .error e =>
    (.error (.InterfaceError ("Failed to start JVM: " ++ e)), [.startJVM jars])
  | .ok _ =>
    match env.loadClass jclassname with
    | .error e =>
      (.error (.DatabaseError ("Failed to connect to database: " ++ e)),
       [.startJVM jars, .loadClass jclassname])
    | .ok _ =>
      match env.loadClass "java.sql.DriverManager" with
      | .error e =>
        (.error (.DatabaseError ("Failed to connect to database: " ++ e)),
         [.startJVM jars, .loadClass jclassname, .loadClass "java.sql.DriverManager"])
      | .ok _ =>
        match driver_args with
        | .none =>
          match env.getConnection url with
          | .error e =>
            (.error (.DatabaseError ("Failed to connect to database: " ++ e)),
             [.startJVM jars, .loadClass jclassname,
              .loadClass "java.sql.DriverManager", .getConnection url])
          | .ok _ =>
            (.ok { _closed := false, _jdbc_connection := some () },
             [.startJVM jars, .loadClass jclassname,
              .loadClass "java.sql.DriverManager", .getConnection url])
        | .dict props =>
          match env.getConnectionProps url props with
          | .error e =>
            (.error (.DatabaseError ("Failed to connect to database: " ++ e)),
             [.startJVM jars, .loadClass jclassname,
              .loadClass "java.sql.DriverManager", .getConnectionProps url props])
          | .ok _ =>
            (.ok { _closed := false, _jdbc_connection := some () },
             [.startJVM jars, .loadClass jclassname,
              .loadClass "java.sql.DriverManager", .getConnectionProps url props])
        | .seq args =>
          match args with
          | [usr, pwd] =>
            match env.getConnectionUserPwd url usr pwd with
            | .error e =>
              (.error (.DatabaseError ("Failed to connect to database: " ++ e)),
               [.startJVM jars, .loadClass jclassname,
                .loadClass "java.sql.DriverManager", .getConnectionUserPwd url usr pwd])
            | .ok _ =>
              (.ok { _closed := false, _jdbc_connection := some () },
               [.startJVM jars, .loadClass jclassname,
                .loadClass "java.sql.DriverManager", .getConnectionUserPwd url usr pwd])
          | _ =>
            (.error (.DatabaseError
              ("Failed to connect to database: driver_args must be dict, [user, password], or None")),
             [.startJVM jars, .loadClass jclassname, .loadClass "java.sql.DriverManager"])

/-- A `driver_args` value that is neither `None`, nor a dict, nor a
2-element list/tuple. -/
def DriverArgs.badShape : DriverArgs → Bool
  | .none => false
  | .dict _ => false
  | .seq args => args.length != 2

/-- `Connection.close` (`connection.py` lines 99-112): a no-op when
already closed; otherwise closes the native connection when present
(any native exception only logs a warning), and the `finally` block
always clears the handle and marks the connection closed.  Returns the
new state, the native calls issued, and the log records — the function
is total, so `close` never raises. -/
def connectionClose (env : ConnEnv) (s : ConnectionState) :
    ConnectionState × List JCall × List LogEvent :=
  if s._closed then (s, [], [])
  else
    match s._jdbc_connection with
    | some _ =>
      match env.closeConn with
      | .ok _ =>
        ({ _closed := true, _jdbc_connection := none }, [.closeConnection],
         [(.debug, "Connection closed")])
      | .error e =>
        ({ _closed := true, _jdbc_connection := none }, [.closeConnection],
         [(.warning, "Error closing connection: " ++ e)])
    | none => ({ _closed := true, _jdbc_connection := none }, [], [])

/-- An environment in which every native call succeeds. -/
def envAllOk : ConnEnv :=
  { startJvm := fun _ => .ok (), loadClass := fun _ => .ok (),
    getConnection := fun _ => .ok (), getConnectionProps := fun _ _ => .ok (),
    getConnectionUserPwd := fun _ _ _ => .ok (), closeConn := .ok () }

theorem isConnectAttempt_trace2 (jars : List String) (j1 : String) :
    ∀ c ∈ [JCall.startJVM jars, JCall.loadClass j1],
      c.isConnectAttempt = false := by
  intro c hc
  simp only [List.mem_cons, List.not_mem_nil, or_false] at hc
  rcases hc with rfl | rfl <;> rfl

theorem isConnectAttempt_trace3 (jars : List String) (j1 j2 : String) :
    ∀ c ∈ [JCall.startJVM jars, JCall.loadClass j1, JCall.loadClass j2],
      c.isConnectAttempt = false := by
  intro c hc
  simp only [List.mem_cons, List.not_mem_nil, or_false] at hc
  rcases hc with rfl | rfl | rfl <;> rfl

/-- C1 counterexample: constructing a Connection with a 3-element
`driver_args` list, in an environment where every native call would
succeed, fails with `DatabaseError` (the shape `ValueError` is wrapped
by the catch-all handler) — not an interface-level error — and the
driver class has already been loaded when the shape check fires. -/
theorem claim_C1_counterexample :
    (connectionInit envAllOk "org.postgresql.Driver" "jdbc:postgresql://h/db"
        (.seq ["u", "p", "x"]) []).1
      = .error (.DatabaseError
          "Failed to connect to database: driver_args must be dict, [user, password], or None")
    ∧ JCall.loadClass "org.postgresql.Driver"
        ∈ (connectionInit envAllOk "org.postgresql.Driver" "jdbc:postgresql://h/db"
            (.seq ["u", "p", "x"]) []).2 :=
  ⟨rfl, by decide⟩

/-- C1 (amended): whenever the JVM starts successfully, constructing a
Connection with a `driver_args` that is neither `None`, nor a dict,
nor a 2-element list/tuple fails with a `DatabaseError` wrapping the
shape `ValueError` (raised inside the same `try` block as — and hence
after — the driver-class load), and no native connection attempt
(`getConnection` in any form) is ever made. -/
theorem claim_C1_amended (env : ConnEnv) (jclassname url : String)
    (jars : List String) (driver_args : DriverArgs)
    (hjvm : env.startJvm jars = .ok ())
    (hbad : driver_args.badShape = true) :
    (∃ msg, (connectionInit env jclassname url driver_args jars).1
        = .error (.DatabaseError msg))
    ∧ ∀ c ∈ (connectionInit env jclassname url driver_args jars).2,
        c.isConnectAttempt = false := by
  cases driver_args with
  | none => simp [DriverArgs.badShape] at hbad
  | dict props => simp [DriverArgs.badShape] at hbad
  | seq args =>
    have hlen : args.length ≠ 2 := by
      simpa [DriverArgs.badShape] using hbad
    unfold connectionInit
    rw [hjvm]
    rcases h1 : env.loadClass jclassname with e1 | u1
    · exact ⟨⟨_, rfl⟩, isConnectAttempt_trace2 jars jclassname⟩
    · rcases h2 : env.loadClass "java.sql.DriverManager" with e2 | u2
      · exact ⟨⟨_, rfl⟩, isConnectAttempt_trace3 jars jclassname _⟩
      · rcases args with _ | ⟨a, _ | ⟨b, _ | ⟨c0, t⟩⟩⟩
        · exact ⟨⟨_, rfl⟩, isConnectAttempt_trace3 jars jclassname _⟩
        · exact ⟨⟨_, rfl⟩, isConnectAttempt_trace3 jars jclassname _⟩
        · exact absurd rfl hlen
        · exact ⟨⟨_, rfl⟩, isConnectAttempt_trace3 jars jclassname _⟩

/-- Witness for C1 (amended) at a concrete bad-shape input. -/
theorem claim_C1_amended_witness :
    (∃ msg, (connectionInit envAllOk "org.postgresql.Driver" "jdbc:postgresql://h/db"
        (.seq ["u", "p", "x"]) []).1 = .error (.DatabaseError msg))
    ∧ ∀ c ∈ (connectionInit envAllOk "org.postgresql.Driver" "jdbc:postgresql://h/db"
        (.seq ["u", "p", "x"]) []).2, c.isConnectAttempt = false :=
  claim_C1_amended envAllOk "org.postgresql.Driver" "jdbc:postgresql://h/db"
    [] (.seq ["u", "p", "x"]) rfl rfl

/-! ## Cursor (`cursor.py`) -/

/-- One Python-level parameter: `none` is Python `None`, `some v` any
other value (the bind path treats non-`None` values opaquely, so an
integer payload suffices). -/
abbrev PyParam := Option Int

/-- The `Cursor` object's fields. `_description` is the list of
`(name, type_code)` pairs — the remaining five slots of the DB-API
7-tuples are always `None` in the source and are omitted. -/
structure CursorState where
  _jdbc_statement : Option Unit
  _jdbc_resultset : Option Unit
  _description : Option (List (String × Int))
  _rowcount : Int
  _arraysize : Nat
  _closed : Bool
deriving DecidableEq

/-- Oracle for the native calls a cursor makes.  `getMetaData` stands
for `getMetaData`/`getColumnCount`/`getColumnName`/`getColumnType`
collapsed into one call returning the `(name, type_code)` list. -/
structure CursorEnv where
  closeStatement : Except String Unit
  closeResultSet : Except String Unit
  prepareStatement : String → Except String Unit
  createStatement : Except String Unit
  setNull : Nat → Except String Unit
  setObject : Nat → Int → Except String Unit
  executePS : Except String Bool
  executeSQL : String → Except String Bool
  getResultSet : Except String Unit
  getMetaData : Except String (List (String × Int))
  getUpdateCount : Except String Int
  addBatch : Except String Unit
  executeBatch : Except String (List Int)

/-- The loop of `Cursor._bind_parameters` (`cursor.py` lines 256-265)
from 1-based index `i`: `None` binds with `setNull(i, 0)`, anything
else with `setObject(i, param)`; a native exception aborts the loop
and propagates. -/
def bindParamsAux (env : CursorEnv) (i : Nat) :
    List PyParam → Except String Unit × List JCall
  | [] => (.ok (), [])
  | Option.none :: rest =>
    match env.setNull i with
    | .error e => (.error e, [.setNull i])
    | .ok _ =>
      match bindParamsAux env (i + 1) rest with
      | (r, calls) => (r, .setNull i :: calls)
  | some v :: rest =>
    match env.setObject i v with
    | .error e => (.error e, [.setObject i v])
    | .ok _ =>
      match bindParamsAux env (i + 1) rest with
      | (r, calls) => (r, .setObject i v :: calls)

/-- `Cursor._bind_parameters`: JDBC parameters are 1-indexed. -/
def bind_parameters (env : CursorEnv) (parameters : List PyParam) :
    Except String Unit × List JCall :=
  bindParamsAux env 1 parameters

/-- Closing the previous statement and result set at the top of
`Cursor.execute` (`cursor.py` lines 117-120); the object references
are not cleared here.  A native exception aborts the sequence and
propagates. -/
def closePreviousOutcome (env : CursorEnv) (s : CursorState) :
    Except String Unit × List JCall :=
  match s._jdbc_statement with
  | some _ =>
    match env.closeStatement with
    | .error e => (.error e, [.closeStatement])
    | .ok _ =>
      match s._jdbc_resultset with
      | some _ =>
        match env.closeResultSet with
        | .error e => (.error e, [.closeStatement, .closeResultSet])
        | .ok _ => (.ok (), [.closeStatement, .closeResultSet])
      | none => (.ok (), [.closeStatement])
  | none =>
    match s._jdbc_resultset with
    | some _ =>
      match env.closeResultSet with
      | .error e => (.error e, [.closeResultSet])
      | .ok _ => (.ok (), [.closeResultSet])
    | none => (.ok (), [])

/-- Outcome of the statement-preparation phase of `Cursor.execute`:
the `execute` result (`has_resultset`), whether a new statement object
was assigned to `self._jdbc_statement`, and the native calls made. -/
structure PrepOutcome where
  result : Except String Bool
  stmtAssigned : Bool
  calls : List JCall
deriving DecidableEq

/-- The `else` branch of the parameters check (`cursor.py` lines
130-132): plain `createStatement` and `execute(operation)` — no
prepared statement, no parameter binding. -/
def unpreparedPath (env : CursorEnv) (operation : String) : PrepOutcome :=
  match env.createStatement with
  | .error e => ⟨.error e, false, [.createStatement]⟩
  | .ok _ =>
    match env.executeSQL operation with
    | .error e => ⟨.error e, true, [.createStatement, .executeSQL operation]⟩
    | .ok b => ⟨.ok b, true, [.createStatement, .executeSQL operation]⟩

/-- The statement-preparation phase of `Cursor.execute` (`cursor.py`
lines 125-132).  The branch condition is Python truthiness
(`if parameters:`): `None` and the empty sequence both take the
unprepared path. -/
def statementPrepPhase (env : CursorEnv) (operation : String)
    (parameters : Option (List PyParam)) : PrepOutcome :=
  match parameters with
  | some ps =>
    if ps.isEmpty then unpreparedPath env operation
    else
      match env.prepareStatement operation with
      | .error e => ⟨.error e, false, [.prepareStatement operation]⟩
      | .ok _ =>
        match bind_parameters env ps with
        | (.error e, calls) =>
          ⟨.error e, true, .prepareStatement operation :: calls⟩
        | (.ok _, calls) =>
          match env.executePS with
          | .error e =>
            ⟨.error e, true, .prepareStatement operation :: calls ++ [.executePS]⟩
          | .ok b =>
            ⟨.ok b, true, .prepareStatement operation :: calls ++ [.executePS]⟩
  | none => unpreparedPath env operation

/-- `Cursor._build_description` (`cursor.py` lines 267-296): metadata
failures are caught, logged as a warning, and leave the description
unset. -/
def buildDescription (env : CursorEnv) :
    Option (List (String × Int)) × List JCall × List LogEvent :=
  match env.getMetaData with
  | .ok cols => (some cols, [.getMetaData], [])
  | .error e => (none, [.getMetaData], [(.warning, "Failed to build description: " ++ e)])

/-- Result-processing phase of `Cursor.execute` (`cursor.py` lines
134-139), given the previous `_jdbc_resultset` reference (kept when no
new result set is produced): result, new resultset field, new
description, new rowcount, calls, logs. -/
def resultsPhase (env : CursorEnv) (oldRs : Option Unit) (has_resultset : Bool) :
    Except String Unit × Option Unit × Option (List (String × Int)) × Int
      × List JCall × List LogEvent :=
  if has_resultset then
    match env.getResultSet with
    | .error e => (.error e, oldRs, none, -1, [.getResultSet], [])
    | .ok _ =>
      match buildDescription env with
      | (desc, calls, logs) => (.ok (), some (), desc, -1, .getResultSet :: calls, logs)
  else
    match env.getUpdateCount with
    | .error e => (.error e, oldRs, none, -1, [.getUpdateCount], [])
    | .ok n => (.ok (), oldRs, none, n, [.getUpdateCount], [])

/-- Outcome of `Cursor.execute` / `Cursor.executemany`: the raised
exception if any, the cursor's state afterwards, the native calls
issued, and the log records emitted. -/
structure ExecOutcome where
  result : Except PyExc Unit
  state : CursorState
  calls : List JCall
  logs : List LogEvent
deriving DecidableEq

/-- `Cursor.execute(operation, parameters)` (`cursor.py` lines
96-145): closed check, close previous statement/result set, reset
description and rowcount, statement-preparation phase dispatching on
parameter truthiness, then result processing; any exception inside the
`try` is logged (error level) and wrapped into `ProgrammingError`. -/
def cursorExecute (env : CursorEnv) (s : CursorState) (operation : String)
    (parameters : Option (List PyParam)) : ExecOutcome :=
  if s._closed then ⟨.error (.InterfaceError "Cursor is closed"), s, [], []⟩
  else
    match closePreviousOutcome env s with
    | (.error e, calls0) =>
      ⟨.error (.ProgrammingError ("Failed to execute operation: " ++ e)), s,
       calls0, [(.error, "Execute failed: " ++ e)]⟩
    | (.ok _, calls0) =>
      match statementPrepPhase env operation parameters with
      | ⟨.error e, assigned, calls1⟩ =>
        ⟨.error (.ProgrammingError ("Failed to execute operation: " ++ e)),
         { s with
           _description := none
           _rowcount := -1
           _jdbc_statement := if assigned then some () else s._jdbc_statement },
         calls0 ++ calls1, [(.error, "Execute failed: " ++ e)]⟩
      | ⟨.ok has_resultset, _, calls1⟩ =>
        match resultsPhase env s._jdbc_resultset has_resultset with
        | (.error e, rs, desc, rc, calls2, logs2) =>
          ⟨.error (.ProgrammingError ("Failed to execute operation: " ++ e)),
           { s with
             _description := desc
             _rowcount := rc
             _jdbc_statement := some ()
             _jdbc_resultset := rs },
           calls0 ++ calls1 ++ calls2, logs2 ++ [(.error, "Execute failed: " ++ e)]⟩
        | (.ok _, rs, desc, rc, calls2, logs2) =>
          ⟨.ok (),
           { s with
             _description := desc
             _rowcount := rc
             _jdbc_statement := some ()
             _jdbc_resultset := rs },
           calls0 ++ calls1 ++ calls2, logs2⟩

/-- The batching loop of `Cursor.executemany` (`cursor.py` lines
166-168): bind each parameter set, then `addBatch`. -/
def batchLoop (env : CursorEnv) :
    List (List PyParam) → Except String Unit × List JCall
  | [] => (.ok (), [])
  | ps :: rest =>
    match bind_parameters env ps with
    | (.error e, calls) => (.error e, calls)
    | (.ok _, calls) =>
      match env.addBatch with
      | .error e => (.error e, calls ++ [.addBatch])
      | .ok _ =>
        match batchLoop env rest with
        | (r, calls2) => (r, calls ++ [.addBatch] ++ calls2)

/-- `Cursor.executemany(operation, seq_of_parameters)` (`cursor.py`
lines 147-175): closed check, one `prepareStatement`, bind+`addBatch`
per parameter set, one `executeBatch`; on success `_rowcount` becomes
the sum of the non-negative per-row counts
(`sum(r for r in results if r >= 0)`); exceptions are wrapped into
`ProgrammingError`. -/
def cursorExecutemany (env : CursorEnv) (s : CursorState) (operation : String)
    (seq_of_parameters : List (List PyParam)) : ExecOutcome :=
  if s._closed then ⟨.error (.InterfaceError "Cursor is closed"), s, [], []⟩
  else
    match env.prepareStatement operation with
    | .error e =>
      ⟨.error (.ProgrammingError ("Failed to execute batch: " ++ e)), s,
       [.prepareStatement operation], [(.error, "ExecuteManyJDBC failed: " ++ e)]⟩
    | .ok _ =>
      match batchLoop env seq_of_parameters with
      | (.error e, calls) =>
        ⟨.error (.ProgrammingError ("Failed to execute batch: " ++ e)),
         { s with _jdbc_statement := some () },
         .prepareStatement operation :: calls,
         [(.error, "ExecuteManyJDBC failed: " ++ e)]⟩
      | (.ok _, calls) =>
        match env.executeBatch with
        | .error e =>
          ⟨.error (.ProgrammingError ("Failed to execute batch: " ++ e)),
           { s with _jdbc_statement := some () },
           .prepareStatement operation :: calls ++ [.executeBatch],
           [(.error, "ExecuteManyJDBC failed: " ++ e)]⟩
        | .ok results =>
          ⟨.ok (),
           { s with
             _jdbc_statement := some ()
             _rowcount := (results.filter (fun r => decide (0 ≤ r))).sum },
           .prepareStatement operation :: calls ++ [.executeBatch], []⟩

/-- `Cursor.close` (`cursor.py` lines 79-94): a no-op when already
closed; otherwise closes the result set then the statement (a native
exception skips the rest of the `try` and only logs a warning), and
the `finally` block always clears both references and marks the
cursor closed.  Total — `close` never raises. -/
def cursorClose (env : CursorEnv) (s : CursorState) :
    CursorState × List JCall × List LogEvent :=
  if s._closed then (s, [], [])
  else
    match s._jdbc_resultset with
    | some _ =>
      match env.closeResultSet with
      | .error e =>
        ({ s with _jdbc_resultset := none, _jdbc_statement := none, _closed := true },
         [.closeResultSet], [(.warning, "Error closing cursor: " ++ e)])
      | .ok _ =>
        match s._jdbc_statement with
        | some _ =>
          match env.closeStatement with
          | .error e =>
            ({ s with _jdbc_resultset := none, _jdbc_statement := none, _closed := true },
             [.closeResultSet, .closeStatement],
             [(.warning, "Error closing cursor: " ++ e)])
          | .ok _ =>
            ({ s with _jdbc_resultset := none, _jdbc_statement := none, _closed := true },
             [.closeResultSet, .closeStatement], [])
        | none =>
          ({ s with _jdbc_resultset := none, _jdbc_statement := none, _closed := true },
           [.closeResultSet], [])
    | none =>
      match s._jdbc_statement with
      | some _ =>
        match env.closeStatement with
        | .error e =>
          ({ s with _jdbc_resultset := none, _jdbc_statement := none, _closed := true },
           [.closeStatement], [(.warning, "Error closing cursor: " ++ e)])
        | .ok _ =>
          ({ s with _jdbc_resultset := none, _jdbc_statement := none, _closed := true },
           [.closeStatement], [])
      | none =>
        ({ s with _jdbc_resultset := none, _jdbc_statement := none, _closed := true },
         [], [])

/-! ### C9, C6, C8 -/

/-- Whether a call is a parameter bind (`setNull`/`setObject`). -/
def JCall.isBind : JCall → Bool
  | .setNull _ => true
  | .setObject _ _ => true
  | _ => false

/-- C9: executing with an empty (but non-`None`) parameter sequence
behaves identically to executing with `parameters=None` — same raised
exception (if any), same state, same native calls, same logs — because
`if parameters:` tests truthiness: the cursor takes the
unprepared-statement path and performs no parameter binding and no
statement preparation. -/
theorem claim_C9_empty_params_eq_none (env : CursorEnv) (s : CursorState)
    (operation : String) :
    cursorExecute env s operation (some []) = cursorExecute env s operation none
    ∧ statementPrepPhase env operation (some []) = unpreparedPath env operation
    ∧ ∀ c ∈ (statementPrepPhase env operation (some [])).calls,
        c.isBind = false ∧ c ≠ .prepareStatement operation := by
  refine ⟨rfl, rfl, ?_⟩
  intro c hc
  have hcalls : (statementPrepPhase env operation (some [])).calls
      = (unpreparedPath env operation).calls := rfl
  rw [hcalls] at hc
  unfold unpreparedPath at hc
  rcases h1 : env.createStatement with e | u
  · rw [h1] at hc
    simp only [List.mem_cons, List.not_mem_nil, or_false] at hc
    subst hc
    exact ⟨rfl, by intro h; cases h⟩
  · rw [h1] at hc
    rcases h2 : env.executeSQL operation with e2 | b
    · rw [h2] at hc
      simp only [List.mem_cons, List.not_mem_nil, or_false] at hc
      rcases hc with rfl | rfl
      · exact ⟨rfl, by intro h; cases h⟩
      · exact ⟨rfl, by intro h; cases h⟩
    · rw [h2] at hc
      simp only [List.mem_cons, List.not_mem_nil, or_false] at hc
      rcases hc with rfl | rfl
      · exact ⟨rfl, by intro h; cases h⟩
      · exact ⟨rfl, by intro h; cases h⟩

theorem bindParamsAux_calls_isBind (env : CursorEnv) (ps : List PyParam) :
    ∀ i, ∀ c ∈ (bindParamsAux env i ps).2, c.isBind = true := by
  induction ps with
  | nil => intro i c hc; cases hc
  | cons p rest ih =>
    intro i c hc
    rcases p with _ | v
    · rw [bindParamsAux] at hc
      revert hc
      rcases h1 : env.setNull i with e | u
      · intro hc
        simp only [List.mem_cons, List.not_mem_nil, or_false] at hc
        subst hc; rfl
      · intro hc
        simp only [List.mem_cons] at hc
        rcases hc with rfl | hc
        · rfl
        · exact ih (i + 1) c hc
    · rw [bindParamsAux] at hc
      revert hc
      rcases h1 : env.setObject i v with e | u
      · intro hc
        simp only [List.mem_cons, List.not_mem_nil, or_false] at hc
        subst hc; rfl
      · intro hc
        simp only [List.mem_cons] at hc
        rcases hc with rfl | hc
        · rfl
        · exact ih (i + 1) c hc

theorem batchLoop_calls_shape (env : CursorEnv) (seq : List (List PyParam)) :
    ∀ c ∈ (batchLoop env seq).2, c.isBind = true ∨ c = .addBatch := by
  induction seq with
  | nil => intro c hc; cases hc
  | cons ps rest ih =>
    intro c hc
    unfold batchLoop at hc
    revert hc
    rcases h1 : bind_parameters env ps with ⟨r1, calls1⟩
    have hbind : ∀ d ∈ calls1, JCall.isBind d = true := by
      intro d hd
      have hb := bindParamsAux_calls_isBind env ps 1 d
      have heq : (bindParamsAux env 1 ps).2 = calls1 := by
        rw [show bindParamsAux env 1 ps = bind_parameters env ps from rfl, h1]
      rw [heq] at hb
      exact hb hd
    rcases r1 with e | u
    · intro hc
      exact Or.inl (hbind c hc)
    · rcases h2 : env.addBatch with e2 | u2
      · intro hc
        rcases List.mem_append.mp hc with hcl | hcr
        · exact Or.inl (hbind c hcl)
        · simp only [List.mem_cons, List.not_mem_nil, or_false] at hcr
          exact Or.inr hcr
      · intro hc
        have hc2 : c ∈ calls1 ++ [JCall.addBatch] ++ (batchLoop env rest).2 := hc
        rcases List.mem_append.mp hc2 with hcl | hcr
        · rcases List.mem_append.mp hcl with hcll | hclr
          · exact Or.inl (hbind c hcll)
          · simp only [List.mem_cons, List.not_mem_nil, or_false] at hclr
            exact Or.inr hclr
        · exact ih c hcr

theorem batchLoop_addBatch_count (env : CursorEnv) (seq : List (List PyParam))
    (h : (batchLoop env seq).1 = .ok ()) :
    (batchLoop env seq).2.count .addBatch = seq.length := by
  induction seq with
  | nil => rfl
  | cons ps rest ih =>
    unfold batchLoop at h ⊢
    revert h
    rcases h1 : bind_parameters env ps with ⟨r1, calls1⟩
    have hbindcount : calls1.count JCall.addBatch = 0 := by
      refine List.count_eq_zero.mpr ?_
      intro hc
      have hb := bindParamsAux_calls_isBind env ps 1 JCall.addBatch
      have heq : (bindParamsAux env 1 ps).2 = calls1 := by
        rw [show bindParamsAux env 1 ps = bind_parameters env ps from rfl, h1]
      rw [heq] at hb
      exact absurd (hb hc) (by decide)
    rcases r1 with e | u
    · intro h
      simp at h
    · rcases h2 : env.addBatch with e2 | u2
      · intro h
        simp at h
      · intro h
        have h3 : (batchLoop env rest).1 = .ok () := h
        have hcount3 : (batchLoop env rest).2.count JCall.addBatch = rest.length :=
          ih h3
        show (calls1 ++ [JCall.addBatch] ++ (batchLoop env rest).2).count JCall.addBatch
            = (ps :: rest).length
        simp only [List.count_append, hbindcount, hcount3, List.length_cons]
        simp [List.count_cons]
        omega

/-- C6: when the cursor is open and the prepared statement, the
per-set binds/`addBatch` and the batch execution all succeed,
`executemany` succeeds and sets rowcount to the sum of the driver's
per-row counts that are non-negative (negative "unknown" sentinels are
excluded from the sum); the trace shows exactly one `prepareStatement`
and one `executeBatch`, with one `addBatch` per parameter set — all
sets are batched on one prepared statement. -/
theorem claim_C6_executemany_rowcount (env : CursorEnv) (s : CursorState)
    (operation : String) (seq : List (List PyParam)) (results : List Int)
    (hopen : s._closed = false)
    (hprep : env.prepareStatement operation = .ok ())
    (hbind : (batchLoop env seq).1 = .ok ())
    (hexec : env.executeBatch = .ok results) :
    (cursorExecutemany env s operation seq).result = .ok ()
    ∧ (cursorExecutemany env s operation seq).state._rowcount
        = (results.filter (fun r => decide (0 ≤ r))).sum
    ∧ (cursorExecutemany env s operation seq).calls.count
        (.prepareStatement operation) = 1
    ∧ (cursorExecutemany env s operation seq).calls.count .executeBatch = 1
    ∧ (cursorExecutemany env s operation seq).calls.count .addBatch
        = seq.length := by
  have hshape := batchLoop_calls_shape env seq
  have haddcount := batchLoop_addBatch_count env seq hbind
  have hred : cursorExecutemany env s operation seq
      = ⟨.ok (),
         { s with
           _jdbc_statement := some ()
           _rowcount := (results.filter (fun r => decide (0 ≤ r))).sum },
         .prepareStatement operation :: (batchLoop env seq).2 ++ [.executeBatch],
         []⟩ := by
    unfold cursorExecutemany
    rw [hopen]
    simp only [Bool.false_eq_true, if_false]
    rw [hprep]
    rcases hb : batchLoop env seq with ⟨r, calls⟩
    rw [hb] at hbind
    rcases r with e | u
    · simp at hbind
    · rw [hexec]
  rw [hred]
  have hnoprep : (batchLoop env seq).2.count (JCall.prepareStatement operation) = 0 := by
    refine List.count_eq_zero.mpr ?_
    intro hc
    rcases hshape _ hc with hb | hb
    · simp [JCall.isBind] at hb
    · cases hb
  have hnoexec : (batchLoop env seq).2.count JCall.executeBatch = 0 := by
    refine List.count_eq_zero.mpr ?_
    intro hc
    rcases hshape _ hc with hb | hb
    · exact absurd hb (by decide)
    · cases hb
  refine ⟨rfl, rfl, ?_, ?_, ?_⟩
  · show (JCall.prepareStatement operation :: ((batchLoop env seq).2 ++ [JCall.executeBatch])).count
        (JCall.prepareStatement operation) = 1
    simp [List.count_cons, List.count_append, hnoprep]
  · show (JCall.prepareStatement operation :: ((batchLoop env seq).2 ++ [JCall.executeBatch])).count
        JCall.executeBatch = 1
    simp [List.count_cons, List.count_append, hnoexec]
  · show (JCall.prepareStatement operation :: ((batchLoop env seq).2 ++ [JCall.executeBatch])).count
        JCall.addBatch = seq.length
    simp [List.count_cons, List.count_append, haddcount]

/-- A cursor environment in which every native call succeeds and the
batch execution returns `batchResults`. -/
def cursorEnvOk (batchResults : List Int) : CursorEnv :=
  { closeStatement := .ok (), closeResultSet := .ok (),
    prepareStatement := fun _ => .ok (), createStatement := .ok (),
    setNull := fun _ => .ok (), setObject := fun _ _ => .ok (),
    executePS := .ok true, executeSQL := fun _ => .ok true,
    getResultSet := .ok (), getMetaData := .ok [], getUpdateCount := .ok 0,
    addBatch := .ok (), executeBatch := .ok batchResults }

/-- A freshly created cursor (`Cursor.__init__`, `cursor.py` lines
28-50). -/
def freshCursor : CursorState :=
  { _jdbc_statement := none, _jdbc_resultset := none, _description := none,
    _rowcount := -1, _arraysize := 1, _closed := false }

/-- Witness for C6: three single-row inserts with parameter sets
`[(1,), (2,), (3,)]`, each reporting one affected row, yield
rowcount 3 on one prepared statement. -/
theorem claim_C6_executemany_rowcount_witness :
    (cursorExecutemany (cursorEnvOk [1, 1, 1]) freshCursor
        "INSERT INTO t VALUES (?)" [[some 1], [some 2], [some 3]]).state._rowcount = 3
    ∧ (cursorExecutemany (cursorEnvOk [1, 1, 1]) freshCursor
        "INSERT INTO t VALUES (?)" [[some 1], [some 2], [some 3]]).calls.count
        (.prepareStatement "INSERT INTO t VALUES (?)") = 1 := by
  have h := claim_C6_executemany_rowcount (cursorEnvOk [1, 1, 1]) freshCursor
    "INSERT INTO t VALUES (?)" [[some 1], [some 2], [some 3]] [1, 1, 1]
    rfl rfl rfl rfl
  refine ⟨?_, h.2.2.1⟩
  rw [h.2.1]
  decide

theorem connectionClose_of_closed (cenv : ConnEnv) (cs : ConnectionState)
    (h : cs._closed = true) : connectionClose cenv cs = (cs, [], []) := by
  unfold connectionClose
  rw [if_pos h]

theorem cursorClose_of_closed (env : CursorEnv) (s : CursorState)
    (h : s._closed = true) : cursorClose env s = (s, [], []) := by
  unfold cursorClose
  rw [if_pos h]

theorem connectionClose_fst_closed (cenv : ConnEnv) (cs : ConnectionState) :
    ((connectionClose cenv cs).1)._closed = true := by
  unfold connectionClose
  split
  · assumption
  · rcases hj : cs._jdbc_connection with _ | u
    · rfl
    · rcases hc : cenv.closeConn with e | u2 <;> rfl

theorem cursorClose_fst_closed (env : CursorEnv) (s : CursorState) :
    ((cursorClose env s).1)._closed = true := by
  unfold cursorClose
  split
  · assumption
  · rcases hr : s._jdbc_resultset with _ | u
    · rcases hs : s._jdbc_statement with _ | u2
      · rfl
      · rcases hc : env.closeStatement with e | u3 <;> rfl
    · rcases hc : env.closeResultSet with e | u2
      · rfl
      · rcases hs : s._jdbc_statement with _ | u3
        · rfl
        · rcases hc2 : env.closeStatement with e2 | u4 <;> rfl

/-- C8: `close()` is idempotent for both Connection and Cursor — the
second call is a no-op returning the same state with no native calls,
no logs, and (being a total function) no exception; and a first close
of an open object always leaves it Closed with its native handle
references cleared. -/
theorem claim_C8_close_idempotent (cenv : ConnEnv) (cs : ConnectionState)
    (env : CursorEnv) (s : CursorState) :
    connectionClose cenv (connectionClose cenv cs).1
        = ((connectionClose cenv cs).1, [], [])
    ∧ cursorClose env (cursorClose env s).1 = ((cursorClose env s).1, [], [])
    ∧ (cs._closed = false → (connectionClose cenv cs).1
        = { _closed := true, _jdbc_connection := none })
    ∧ (s._closed = false → (cursorClose env s).1
        = { s with _closed := true, _jdbc_statement := none, _jdbc_resultset := none }) := by
  refine ⟨?_, ?_, ?_, ?_⟩
  · exact connectionClose_of_closed cenv _ (connectionClose_fst_closed cenv cs)
  · exact cursorClose_of_closed env _ (cursorClose_fst_closed env s)
  · intro h
    obtain ⟨cl, conn⟩ := cs
    have h2 : cl = false := h
    subst h2
    cases conn with
    | none => rfl
    | some u =>
      unfold connectionClose
      rcases hc : cenv.closeConn with e | u2 <;> rfl
  · intro h
    obtain ⟨st, rs, d, rc, a, cl⟩ := s
    have h2 : cl = false := h
    subst h2
    cases rs with
    | none =>
      cases st with
      | none => rfl
      | some u =>
        unfold cursorClose
        rcases hc : env.closeStatement with e | u2 <;> rfl
    | some u =>
      unfold cursorClose
      rcases hc : env.closeResultSet with e | u2
      · rfl
      · cases st with
        | none => rfl
        | some u3 =>
          rcases hc2 : env.closeStatement with e2 | u4 <;> rfl

/-- Witness for C8 at concrete open objects with live handles. -/
theorem claim_C8_close_idempotent_witness :
    cursorClose (cursorEnvOk []) (cursorClose (cursorEnvOk [])
        { freshCursor with _jdbc_statement := some (), _jdbc_resultset := some () }).1
      = ((cursorClose (cursorEnvOk [])
          { freshCursor with _jdbc_statement := some (), _jdbc_resultset := some () }).1, [], [])
    ∧ (connectionClose envAllOk { _closed := false, _jdbc_connection := some () }).1
        = { _closed := true, _jdbc_connection := none } :=
  ⟨(claim_C8_close_idempotent envAllOk { _closed := false, _jdbc_connection := some () }
      (cursorEnvOk [])
      { freshCursor with _jdbc_statement := some (), _jdbc_resultset := some () }).2.1,
   (claim_C8_close_idempotent envAllOk { _closed := false, _jdbc_connection := some () }
      (cursorEnvOk [])
      { freshCursor with _jdbc_statement := some (), _jdbc_resultset := some () }).2.2.1 rfl⟩

/-! ## Type conversion (`type_converter.py`) -/

/-- An opaque Java-side object reference (the value returned by the
generic `getObject` accessor). -/
inductive JVal where
  | obj (tag : Nat)
deriving DecidableEq

/-- Host (Python) values produced by `convert_from_jdbc`.  Host floats
and date/time objects are opaque tokens: the claims under study
concern control flow (NULL propagation, fallback, logging), not float
or calendar arithmetic. -/
inductive PyVal where
  | none
  | str (s : String)
  | int (n : Int)
  | float (d : Nat)
  | bool (b : Bool)
  | date (d : Nat)
  | time (t : Nat)
  | datetime (t : Nat)
  | bytes (bs : List Nat)
  | list (vs : List JVal)
  | javaObj (v : JVal)
deriving DecidableEq

/-- `java.sql.Blob` reference: `length()` and `getBytes(pos, len)`. -/
structure BlobRef where
  length : Except String Int
  bytesAt : Int → Int → Except String (List Nat)

/-- `java.sql.Clob` reference: `length()`, `getSubString(pos, len)`
and the character-stream fallback (modelled as reading the whole
stream). -/
structure ClobRef where
  length : Except String Int
  subStringAt : Int → Int → Except String String
  charStream : Except String String

/-- One result-set cell: the outcome of each native accessor on this
column (an `Except.error` is a raised Java exception), plus the
`wasNull` flag, which is constant per cell once any fetch succeeded.
`getDate`/`getTime` deliver the object's `getTime()` milliseconds;
`getTimestamp` also carries `getNanos()`. -/
structure ResultSetCell where
  getObject : Except String (Option JVal)
  wasNull : Bool
  getString : Except String (Option String)
  getLong : Except String Int
  getBigDecimal : Except String (Option String)
  getDouble : Except String Nat
  getBoolean : Except String Bool
  getDate : Except String (Option Int)
  getTime : Except String (Option Int)
  getTimestamp : Except String (Option (Int × Nat))
  getBytes : Except String (Option (List Nat))
  getBlob : Except String (Option BlobRef)
  getClob : Except String (Option ClobRef)
  objHasGetArray : Bool
  arrayGetArray : Except String (Option (List JVal))

/-- Host-runtime functions used inside the date/time/decimal
conversions (`float(str(...))`, `datetime.fromtimestamp`,
`dt.replace(microsecond=...)`), supplied as an oracle; the
`fromtimestamp` calls may raise (the source wraps them in `try`). -/
structure HostEnv where
  floatOfDecimalString : String → Nat
  dateFromMillis : Int → Except String Nat
  timeFromMillis : Int → Except String Nat
  datetimeFromMillis : Int → Except String Nat
  replaceMicrosecond : Nat → Nat → Nat

/-- `_convert_string` (lines 154-157). -/
def convertString (cell : ResultSetCell) : Except String PyVal × List LogEvent :=
  match cell.getString with
  | .error e => (.error e, [])
  | .ok Option.none => (.ok .none, [])
  | .ok (some s) => (.ok (.str s), [])

/-- `_convert_int` (lines 159-162). -/
def convertInt (cell : ResultSetCell) : Except String PyVal × List LogEvent :=
  match cell.getLong with
  | .error e => (.error e, [])
  | .ok v => if cell.wasNull then (.ok .none, []) else (.ok (.int v), [])

/-- `_convert_decimal` (lines 164-171): `float(str(value))`. -/
def convertDecimal (env : HostEnv) (cell : ResultSetCell) :
    Except String PyVal × List LogEvent :=
  match cell.getBigDecimal with
  | .error e => (.error e, [])
  | .ok Option.none => (.ok .none, [])
  | .ok (some s) =>
    if cell.wasNull then (.ok .none, [])
    else (.ok (.float (env.floatOfDecimalString s)), [])

/-- `_convert_float` (lines 173-176). -/
def convertFloat (cell : ResultSetCell) : Except String PyVal × List LogEvent :=
  match cell.getDouble with
  | .error e => (.error e, [])
  | .ok d => if cell.wasNull then (.ok .none, []) else (.ok (.float d), [])

/-- `_convert_boolean` (lines 178-181). -/
def convertBoolean (cell : ResultSetCell) : Except String PyVal × List LogEvent :=
  match cell.getBoolean with
  | .error e => (.error e, [])
  | .ok b => if cell.wasNull then (.ok .none, []) else (.ok (.bool b), [])

/-- `_convert_date` (lines 183-199): the epoch-millisecond conversion
sits in an inner `try` whose failure logs a warning and yields
`None`. -/
def convertDate (env : HostEnv) (cell : ResultSetCell) :
    Except String PyVal × List LogEvent :=
  match cell.getDate with
  | .error e => (.error e, [])
  | .ok Option.none => (.ok .none, [])
  | .ok (some ms) =>
    if cell.wasNull then (.ok .none, [])
    else
      match env.dateFromMillis ms with
      | .ok d => (.ok (.date d), [])
      | .error e => (.ok .none, [(.warning, "Date conversion failed: " ++ e)])

/-- `_convert_time` (lines 201-213). -/
def convertTime (env : HostEnv) (cell : ResultSetCell) :
    Except String PyVal × List LogEvent :=
  match cell.getTime with
  | .error e => (.error e, [])
  | .ok Option.none => (.ok .none, [])
  | .ok (some ms) =>
    if cell.wasNull then (.ok .none, [])
    else
      match env.timeFromMillis ms with
      | .ok t => (.ok (.time t), [])
      | .error e => (.ok .none, [(.warning, "Time conversion failed: " ++ e)])

/-- `_convert_timestamp` (lines 215-234): microseconds are
`getNanos() // 1000`, clamped by `% 1000000` in the `replace` call. -/
def convertTimestamp (env : HostEnv) (cell : ResultSetCell) :
    Except String PyVal × List LogEvent :=
  match cell.getTimestamp with
  | .error e => (.error e, [])
  | .ok Option.none => (.ok .none, [])
  | .ok (some (ms, nanos)) =>
    if cell.wasNull then (.ok .none, [])
    else
      match env.datetimeFromMillis ms with
      | .ok dt =>
        (.ok (.datetime (env.replaceMicrosecond dt ((nanos / 1000) % 1000000))), [])
      | .error e => (.ok .none, [(.warning, "Timestamp conversion failed: " ++ e)])

/-- `_convert_binary` (lines 236-241). -/
def convertBinary (cell : ResultSetCell) : Except String PyVal × List LogEvent :=
  match cell.getBytes with
  | .error e => (.error e, [])
  | .ok Option.none => (.ok .none, [])
  | .ok (some bs) =>
    if cell.wasNull then (.ok .none, []) else (.ok (.bytes bs), [])

/-- `_convert_blob` (lines 243-254): the `length`/`getBytes` reads sit
in an inner `try` whose failure logs a warning and yields `None`. -/
def convertBlob (cell : ResultSetCell) : Except String PyVal × List LogEvent :=
  match cell.getBlob with
  | .error e => (.error e, [])
  | .ok Option.none => (.ok .none, [])
  | .ok (some blob) =>
    if cell.wasNull then (.ok .none, [])
    else
      match blob.length with
      | .error e => (.ok .none, [(.warning, "BLOB conversion failed: " ++ e)])
      | .ok len =>
        match blob.bytesAt 1 len with
        | .error e => (.ok .none, [(.warning, "BLOB conversion failed: " ++ e)])
        | .ok bs => (.ok (.bytes bs), [])

/-- `_convert_clob` (lines 256-278): `length`+`getSubString` first,
then the character-stream fallback, then a warning and `None`. -/
def convertClob (cell : ResultSetCell) : Except String PyVal × List LogEvent :=
  match cell.getClob with
  | .error e => (.error e, [])
  | .ok Option.none => (.ok .none, [])
  | .ok (some clob) =>
    if cell.wasNull then (.ok .none, [])
    else
      match clob.length with
      | .ok len =>
        match clob.subStringAt 1 len with
        | .ok s => (.ok (.str s), [])
        | .error e =>
          match clob.charStream with
          | .ok s => (.ok (.str s), [])
          | .error e2 =>
            (.ok .none, [(.warning, "CLOB conversion failed: " ++ e ++ ", " ++ e2)])
      | .error e =>
        match clob.charStream with
        | .ok s => (.ok (.str s), [])
        | .error e2 =>
          (.ok .none, [(.warning, "CLOB conversion failed: " ++ e ++ ", " ++ e2)])

/-- `_convert_array` (lines 280-292). -/
def convertArray (cell : ResultSetCell) : Except String PyVal × List LogEvent :=
  match cell.arrayGetArray with
  | .error e => (.ok .none, [(.warning, "Array conversion failed: " ++ e)])
  | .ok Option.none => (.ok .none, [])
  | .ok (some l) => (.ok (.list l), [])

/-- The wire-type-code dispatch of `convert_from_jdbc` (lines 91-144),
for a non-NULL cell whose generic value is `v`. -/
def convertDispatch (env : HostEnv) (cell : ResultSetCell) (sql_type : Int)
    (v : JVal) : Except String PyVal × List LogEvent :=
  if sql_type = 1 ∨ sql_type = 12 ∨ sql_type = -1 then convertString cell
  else if sql_type = -6 ∨ sql_type = 5 ∨ sql_type = 4 ∨ sql_type = -5 then
    convertInt cell
  else if sql_type = 2 ∨ sql_type = 3 then convertDecimal env cell
  else if sql_type = 6 ∨ sql_type = 7 ∨ sql_type = 8 then convertFloat cell
  else if sql_type = -7 then convertBoolean cell
  else if sql_type = 91 then convertDate env cell
  else if sql_type = 92 then convertTime env cell
  else if sql_type = 93 then convertTimestamp env cell
  else if sql_type = -4 ∨ sql_type = -3 ∨ sql_type = -2 then convertBinary cell
  else if sql_type = 2004 then convertBlob cell
  else if sql_type = 2005 ∨ sql_type = 2011 then convertClob cell
  else if cell.objHasGetArray then convertArray cell
  else (.ok (.javaObj v), [(.debug, "Unknown SQL type, returning as-is")])

/-- The `except` handler of `convert_from_jdbc` (lines 146-152): log a
warning, then fall back to the generic accessor — whose own exception,
if any, propagates. -/
def convertFallback (cell : ResultSetCell) (logs : List LogEvent) (e : String) :
    Except String PyVal × List LogEvent :=
  match cell.getObject with
  | .error e2 => (.error e2, logs ++ [(.warning, "Type conversion failed: " ++ e)])
  | .ok Option.none => (.ok .none, logs ++ [(.warning, "Type conversion failed: " ++ e)])
  | .ok (some v) =>
    (.ok (.javaObj v), logs ++ [(.warning, "Type conversion failed: " ++ e)])

/-- `TypeConverter.convert_from_jdbc` (lines 69-152): fetch the
generic value first, return `None` when it is `None` or the native
`wasNull` flag is set, otherwise dispatch on the wire-type-code; any
exception raised inside the `try` goes to the fallback handler. -/
def convert_from_jdbc (env : HostEnv) (cell : ResultSetCell) (sql_type : Int) :
    Except String PyVal × List LogEvent :=
  match cell.getObject with
  | .error e => convertFallback cell [] e
  | .ok Option.none => (.ok .none, [])
  | .ok (some v) =>
    if cell.wasNull then (.ok .none, [])
    else
      match convertDispatch env cell sql_type v with
      | (.error e, logs) => convertFallback cell logs e
      | (.ok val, logs) => (.ok val, logs)

/-- The wire-type-codes handled by a dedicated conversion arm. -/
def supportedTypeCodes : List Int :=
  [1, 12, -1, -6, 5, 4, -5, 2, 3, 6, 7, 8, -7, 91, 92, 93, -4, -3, -2, 2004, 2005, 2011]

/-- A host-runtime oracle with trivial conversions. -/
def hostEnv0 : HostEnv :=
  { floatOfDecimalString := fun _ => 0, dateFromMillis := fun _ => .ok 0,
    timeFromMillis := fun _ => .ok 0, datetimeFromMillis := fun _ => .ok 0,
    replaceMicrosecond := fun d _ => d }

/-- A cell on which every accessor succeeds and the value is
non-NULL. -/
def benignCell : ResultSetCell :=
  { getObject := .ok (some (.obj 3)), wasNull := false,
    getString := .ok (some "x"), getLong := .ok 42,
    getBigDecimal := .ok (some "1.5"), getDouble := .ok 0,
    getBoolean := .ok true, getDate := .ok (some 0), getTime := .ok (some 0),
    getTimestamp := .ok (some (0, 0)), getBytes := .ok (some []),
    getBlob := .ok Option.none, getClob := .ok Option.none,
    objHasGetArray := false, arrayGetArray := .ok Option.none }

/-- A cell whose native `wasNull` flag is set although the raw fetched
value is a live object and every typed accessor returns garbage. -/
def cellNullFlag : ResultSetCell :=
  { benignCell with wasNull := true, getObject := .ok (some (.obj 7)) }

/-- A cell whose typed accessor (`getLong`) raises while the generic
accessor succeeds. -/
def cellBadLong : ResultSetCell :=
  { benignCell with
    getObject := .ok (some (.obj 5))
    getLong := .error "SQLException" }

theorem convert_from_jdbc_nullFlag (env : HostEnv) (cell : ResultSetCell)
    (sql_type : Int) (v : JVal) (h : cell.getObject = .ok (some v))
    (hw : cell.wasNull = true) :
    convert_from_jdbc env cell sql_type = (.ok .none, []) := by
  unfold convert_from_jdbc
  rw [h, hw]
  rfl

theorem convert_from_jdbc_nonNull (env : HostEnv) (cell : ResultSetCell)
    (sql_type : Int) (v : JVal) (h : cell.getObject = .ok (some v))
    (hw : cell.wasNull = false) :
    convert_from_jdbc env cell sql_type
      = match convertDispatch env cell sql_type v with
        | (.error e, logs) => convertFallback cell logs e
        | (.ok val, logs) => (.ok val, logs) := by
  unfold convert_from_jdbc
  rw [h, hw]
  rfl

theorem convertFallback_ok_some (cell : ResultSetCell) (logs : List LogEvent)
    (e : String) (v : JVal) (h : cell.getObject = .ok (some v)) :
    convertFallback cell logs e
      = (.ok (.javaObj v), logs ++ [(.warning, "Type conversion failed: " ++ e)]) := by
  unfold convertFallback
  rw [h]

/-- C4: for every wire-type-code, when the initial generic fetch
succeeds and either returns no value or the native was-null flag is
set, the converted host value is `None` (with no logs and no further
native reads), regardless of the raw value fetched before the flag
check. -/
theorem claim_C4_null_propagation (env : HostEnv) (cell : ResultSetCell)
    (sql_type : Int) (r : Option JVal)
    (h : cell.getObject = .ok r)
    (hnull : r = Option.none ∨ cell.wasNull = true) :
    convert_from_jdbc env cell sql_type = (.ok .none, []) := by
  rcases hnull with rfl | hw
  · unfold convert_from_jdbc
    rw [h]
  · rcases r with _ | v
    · unfold convert_from_jdbc
      rw [h]
    · exact convert_from_jdbc_nullFlag env cell sql_type v h hw

/-- Witness for C4: a cell whose flag is set while the raw value is a
live object converts to `None` under an integer wire-type-code. -/
theorem claim_C4_null_propagation_witness :
    cellNullFlag.getObject = .ok (some (.obj 7))
    ∧ cellNullFlag.wasNull = true
    ∧ convert_from_jdbc hostEnv0 cellNullFlag 4 = (.ok .none, []) :=
  ⟨rfl, rfl,
   claim_C4_null_propagation hostEnv0 cellNullFlag 4 (some (.obj 7)) rfl (Or.inr rfl)⟩

/-- C5 counterexample: an unknown wire-type-code (9999) on a healthy
non-NULL cell returns the generic accessor's value as-is but logs only
a debug record — no warning is logged, contrary to the claim. -/
theorem claim_C5_counterexample :
    convert_from_jdbc hostEnv0 benignCell 9999
      = (.ok (.javaObj (.obj 3)), [(LogLevel.debug, "Unknown SQL type, returning as-is")])
    ∧ ∀ l ∈ (convert_from_jdbc hostEnv0 benignCell 9999).2, l.1 ≠ LogLevel.warning := by
  constructor
  · rfl
  · intro l hl
    have hl2 : l ∈ [((LogLevel.debug : LogLevel), "Unknown SQL type, returning as-is")] := hl
    simp only [List.mem_cons, List.not_mem_nil, or_false] at hl2
    subst hl2
    decide

/-- C5 (amended): when the generic accessor succeeds,
`convert_from_jdbc` never raises; a wire-type-code outside the
supported set returns the generic accessor's value with a debug record
logged (not a warning); and a conversion failure for a single cell
logs a warning and falls back to the generic accessor's value instead
of propagating the exception. -/
theorem claim_C5_never_raises_amended (env : HostEnv) (cell : ResultSetCell)
    (sql_type : Int) (r : Option JVal) (h : cell.getObject = .ok r) :
    (∃ val logs, convert_from_jdbc env cell sql_type = (.ok val, logs))
    ∧ (∀ v, r = some v → cell.wasNull = false →
        sql_type ∉ supportedTypeCodes → cell.objHasGetArray = false →
        convert_from_jdbc env cell sql_type
          = (.ok (.javaObj v), [(.debug, "Unknown SQL type, returning as-is")]))
    ∧ (∀ v e logs, r = some v → cell.wasNull = false →
        convertDispatch env cell sql_type v = (.error e, logs) →
        convert_from_jdbc env cell sql_type
          = (.ok (.javaObj v), logs ++ [(.warning, "Type conversion failed: " ++ e)])) := by
  refine ⟨?_, ?_, ?_⟩
  · rcases r with _ | v
    · refine ⟨.none, [], ?_⟩
      unfold convert_from_jdbc
      rw [h]
    · by_cases hw : cell.wasNull = true
      · exact ⟨.none, [], convert_from_jdbc_nullFlag env cell sql_type v h hw⟩
      · have hw2 : cell.wasNull = false := by
          simpa using hw
        rw [convert_from_jdbc_nonNull env cell sql_type v h hw2]
        rcases hd : convertDispatch env cell sql_type v with ⟨res, logs⟩
        rcases res with e | val
        · exact ⟨.javaObj v, logs ++ [(.warning, "Type conversion failed: " ++ e)],
            convertFallback_ok_some cell logs e v h⟩
        · exact ⟨val, logs, rfl⟩
  · intro v hr hw hunk hga
    subst hr
    have hmem := hunk
    simp [supportedTypeCodes] at hmem
    have hdisp : convertDispatch env cell sql_type v
        = (.ok (.javaObj v), [(.debug, "Unknown SQL type, returning as-is")]) := by
      unfold convertDispatch
      iterate 11 rw [if_neg (by omega)]
      rw [if_neg (by simp [hga])]
    rw [convert_from_jdbc_nonNull env cell sql_type v h hw, hdisp]
  · intro v e logs hr hw hd
    subst hr
    rw [convert_from_jdbc_nonNull env cell sql_type v h hw, hd]
    exact convertFallback_ok_some cell logs e v h

/-- Witness for C5 (amended): a raising `getLong` on an integer column
falls back to the generic value with a warning logged, raising
nothing. -/
theorem claim_C5_never_raises_amended_witness :
    convert_from_jdbc hostEnv0 cellBadLong 4
      = (.ok (.javaObj (.obj 5)),
         [(LogLevel.warning, "Type conversion failed: SQLException")])
    ∧ ∃ val logs, convert_from_jdbc hostEnv0 cellBadLong 4 = (.ok val, logs) := by
  have h := claim_C5_never_raises_amended hostEnv0 cellBadLong 4 (some (.obj 5)) rfl
  exact ⟨h.2.2 (.obj 5) "SQLException" [] rfl rfl rfl, h.1⟩

/-! ## Async cursor (`async_cursor.py`) -/

/-- The kind of attribute a lookup on a `Cursor` object resolves to. -/
inductive CursorAttr where
  | prop (name : String)
  | method (name : String)
  | field (name : String)
deriving DecidableEq

/-- Python attribute lookup on a `Cursor` object: the class defines the
properties `description`/`rowcount`/`arraysize` and the DB-API methods
(`cursor.py` lines 52-94, 96-254, 256-310), and `__init__` (lines
28-50) sets the nine instance attributes.  Any other name — `lastrowid`
among them — raises `AttributeError`. -/
def cursorGetattr (s : CursorState) (name : String) : Except PyExc CursorAttr :=
  if name = "description" ∨ name = "rowcount" ∨ name = "arraysize" then
    .ok (.prop name)
  else if name ∈ ["close", "execute", "executemany", "fetchone", "fetchmany",
      "fetchall", "setinputsizes", "setoutputsize", "_bind_parameters",
      "_build_description", "_fetch_row"] then
    .ok (.method name)
  else if name ∈ ["_connection", "_jdbc_connection", "_jdbc_statement",
      "_jdbc_resultset", "_description", "_rowcount", "_arraysize",
      "_type_converter", "_closed"] then
    .ok (.field name)
  else .error (.AttributeError name)

/-- The `AsyncCursor` object's fields (`async_cursor.py` lines 34-42). -/
structure AsyncCursorState where
  _sync_cursor : CursorState
  _closed : Bool

/-- The `AsyncCursor.lastrowid` property (`async_cursor.py` lines
173-176): `return self._sync_cursor.lastrowid` — a plain attribute
access on the synchronous cursor, with no closed-state guard. -/
def asyncCursorLastrowid (a : AsyncCursorState) : Except PyExc CursorAttr :=
  cursorGetattr a._sync_cursor "lastrowid"

/-- C10: accessing `AsyncCursor.lastrowid` raises `AttributeError` in
every cursor state — open or closed, before or after any execution —
because the underlying synchronous `Cursor` never defines a
`lastrowid` attribute. -/
theorem claim_C10_lastrowid_attribute_error (a : AsyncCursorState) :
    asyncCursorLastrowid a = .error (.AttributeError "lastrowid")
    ∧ ∀ s : CursorState, cursorGetattr s "lastrowid"
        = .error (.AttributeError "lastrowid") :=
  ⟨rfl, fun s => rfl⟩

end SqlalchemyJdbcapi
